import Mathlib

/-!
Shallow embedding of the aibe_checkout repository: three Vercel-style request
handlers (Session Initiator `api/checkout-session.js`, Event Receiver
`api/stripe-webhook.js` and its revisions, Confirmation Poller
`api/confirm-session.js`) plus the tracking relay `api/track.js`.

Stripe-side resources (customers, invoices, checkout sessions) are modelled as
association lists keyed by resource id; provider calls are recorded in an
explicit trace; JavaScript string truthiness (null and the empty string are
falsy) is modelled by `jsTruthy`.
-/

/-- Truthiness of a JavaScript string-or-nullish value: `null`/`undefined` and
the empty string are falsy, every other string is truthy. -/
def jsTruthy : Option String → Bool
  | none => false
  | some s => !(s == "")

/-- JS `String.prototype.trim`: strip leading and trailing whitespace
(character-list based so that the kernel can evaluate it). -/
def jsTrim (s : String) : String :=
  ⟨((s.data.dropWhile Char.isWhitespace).reverse.dropWhile Char.isWhitespace).reverse⟩

/-- JS `String.prototype.toLowerCase` (character-list based so that the kernel
can evaluate it). -/
def jsToLower (s : String) : String :=
  ⟨s.data.map Char.toLower⟩

/-- One entry of an invoice-level (or customer `invoice_settings`) custom-field
list: a display name plus a value, as Stripe stores them. -/
structure CustomFieldKV where
  name : String
  value : String
deriving DecidableEq, Repr

/-- One entry of a checkout-session `custom_fields` list: the field key plus
the buyer-typed text value (`f.text.value`, possibly null). -/
structure SessionField where
  key : String
  value : Option String
deriving DecidableEq, Repr

/-- Lookup in a string-keyed association list (first match wins, like a JS
object property read). -/
def lookupKey {α : Type} (l : List (String × α)) (k : String) : Option α :=
  (l.find? (fun p => p.1 == k)).map (fun p => p.2)

/-- JS object property assignment on a string map: replaces the value of an
existing key in place, otherwise appends the key at the end. -/
def setKey (m : List (String × String)) (k v : String) : List (String × String) :=
  if m.any (fun p => p.1 == k) then m.map (fun p => if p.1 == k then (k, v) else p)
  else m ++ [(k, v)]

/-- Replace the value stored under an existing id of a resource map (a Stripe
`update` on a resource that is known to exist). -/
def updateEntry {α : Type} (l : List (String × α)) (k : String) (v : α) : List (String × α) :=
  l.map (fun p => if p.1 == k then (k, v) else p)

/-- Replacement for the `upsert` closure of `upsertCustomerInvoiceDefaults` /
`ensureInvoiceHasCompanyAndVat` (api/stripe-webhook.js, first revision):
replace the first entry whose `name` matches, else append. -/
def upsertGo : List CustomFieldKV → String → String → List CustomFieldKV
  | [], n, v => [⟨n, v⟩]
  | f :: rest, n, v => if f.name == n then ⟨n, v⟩ :: rest else f :: upsertGo rest n v

/-- The `upsert(name, value)` helper of api/stripe-webhook.js (first revision):
a falsy (empty) value is ignored, otherwise merge by field name. -/
def upsertCustomField (l : List CustomFieldKV) (n v : String) : List CustomFieldKV :=
  if v == "" then l else upsertGo l n v

/-- A Stripe customer as this codebase reads and writes it: display name,
free-form `metadata`, the `invoice_settings.custom_fields` list inherited by
future invoices, and the contact email used by `customers.list`. -/
structure Customer where
  id : String
  email : Option String
  name : Option String
  metadata : List (String × String)
  invoiceCustomFields : List CustomFieldKV
deriving DecidableEq, Repr

/-- A Stripe invoice as this codebase reads and writes it. `status` is one of
draft / open / paid / void / uncollectible; `finalized_at` is set exactly when
the invoice has been finalized (draft becomes open). -/
structure Invoice where
  id : String
  status : String
  customer : Option String
  customer_name : Option String
  custom_fields : List CustomFieldKV
  finalized_at : Option Nat
  auto_advance : Bool
deriving DecidableEq, Repr

/-- A checkout session as the webhook revisions read it: the owning customer,
the session invoice (for one-time payments), the subscription latest invoice,
and the buyer-facing custom fields. -/
structure SessionObj where
  id : String
  customer : Option String
  invoiceId : Option String
  latestInvoiceId : Option String
  custom_fields : List SessionField
deriving DecidableEq, Repr

/-- readCompanyAndVatFromSession (api/stripe-webhook.js, first revision):
scan the session custom fields, lowercase the key, trim the value, skip empty
values, and remember company name and tax number under their accepted keys. -/
def readCompanyAndVatFromSession (fields : List SessionField) : Option String × Option String :=
  fields.foldl
    (fun acc f =>
      let k := jsToLower f.key
      let v := jsTrim (f.value.getD "")
      if v == "" then acc
      else
        let c := if k == "company_name" || k == "company" || k == "firmenname" then some v else acc.1
        let t := if k == "tax_number" || k == "vat" || k == "steuernummer" then some v else acc.2
        (c, t))
    (none, none)

/-- upsertCustomerInvoiceDefaults (api/stripe-webhook.js, first revision), the
pure effect on the retrieved customer: merge metadata keys, then upsert the
Company / VAT entries of `invoice_settings.custom_fields` by field name. -/
def upsertCustomerInvoiceDefaults (customer : Customer)
    (companyName taxNumber : Option String) : Customer :=
  let metadata := customer.metadata
  let metadata := if jsTruthy companyName then setKey metadata "company_name" (companyName.getD "") else metadata
  let metadata := if jsTruthy taxNumber then setKey metadata "tax_number" (taxNumber.getD "") else metadata
  let customFields := customer.invoiceCustomFields
  let customFields := upsertCustomField customFields "Company" (companyName.getD "")
  let customFields := upsertCustomField customFields "VAT" (taxNumber.getD "")
  { customer with metadata := metadata, invoiceCustomFields := customFields }

/-- The patch `ensureInvoiceHasCompanyAndVat` sends to `invoices.update`. -/
structure InvoicePatch where
  customer_name : Option String
  custom_fields : Option (List CustomFieldKV)
deriving DecidableEq, Repr

/-- ensureInvoiceHasCompanyAndVat (api/stripe-webhook.js, first revision), the
pure decision on the retrieved invoice: after finalization nothing is mutated
(`none` means no `invoices.update` call); otherwise build the patch, which in
the non-skip branch always carries the merged custom-field list. -/
def ensureInvoiceHasCompanyAndVat (inv : Invoice) (companyName taxNumber : Option String)
    (skipCustomFieldsIfAlreadyOnCustomer : Bool) : Option InvoicePatch :=
  if inv.status == "paid" || inv.status == "void" || inv.status == "uncollectible"
      || inv.finalized_at.isSome then
    none
  else
    let cn : Option String :=
      if jsTruthy companyName && !(jsTruthy inv.customer_name) then companyName else none
    let cf : Option (List CustomFieldKV) :=
      if skipCustomFieldsIfAlreadyOnCustomer then none
      else
        let current := inv.custom_fields
        let current := if jsTruthy companyName then upsertCustomField current "Company" (companyName.getD "") else current
        let current := if jsTruthy taxNumber then upsertCustomField current "VAT" (taxNumber.getD "") else current
        some current
    if cn.isNone && cf.isNone then none else some ⟨cn, cf⟩

/-- Outcome of applying an `InvoicePatch` via `invoices.update`. -/
def applyInvoicePatch (inv : Invoice) (p : InvoicePatch) : Invoice :=
  { inv with
    customer_name := match p.customer_name with | some c => some c | none => inv.customer_name,
    custom_fields := match p.custom_fields with | some cf => cf | none => inv.custom_fields }

/-- hasCustomFields (api/stripe-webhook.js, first revision). -/
def hasCustomFields (inv : Invoice) : Bool :=
  !(inv.custom_fields.isEmpty)

/-- A provider API call issued by a handler, as recorded in the trace. -/
inductive StripeCall where
  | sessionsRetrieve (id : String)
  | customersRetrieve (id : String)
  | customersUpdate (id : String)
  | customersList (email : String)
  | customersCreate (email : String)
  | invoicesRetrieve (id : String)
  | invoicesList (customerId : String)
  | invoicesUpdate (id : String)
  | invoicesFinalize (id : String)
  | sessionsCreate (price : String) (mode : String)
  | relayPost (url : String)
deriving DecidableEq, Repr

/-- The payload of a verified Stripe event envelope (`event.data.object`),
tagged by the event type the webhook switches on. -/
inductive EventData where
  | sessionCompleted (s : SessionObj)
  | invoiceCreated (inv : Invoice)
  | invoiceFinalized (inv : Invoice)
  | other (t : String)
deriving DecidableEq, Repr

/-- A verified Stripe event: the event id plus the typed payload. -/
structure StripeEvent where
  id : String
  data : EventData
deriving DecidableEq, Repr

/-- Result of running the webhook switch body: success or a thrown error, in
both cases with the provider state reached and the calls issued so far. -/
inductive ProcResult (σ : Type) where
  | ok (st : σ) (calls : List StripeCall)
  | err (msg : String) (st : σ) (calls : List StripeCall)
deriving DecidableEq, Repr

/-- The provider-side resources the first webhook revision touches. -/
structure StripeState where
  sessions : List (String × SessionObj)
  customers : List (String × Customer)
  invoices : List (String × Invoice)
deriving DecidableEq, Repr

/-- stripe.webhooks.constructEvent: the signature header must equal the MAC of
the raw body under the shared webhook secret, and the body must parse as an
event envelope; any failure throws (modelled as `none`). -/
def constructEvent (mac : String → String → String) (parse : String → Option StripeEvent)
    (raw : String) (sig : Option String) (secret : String) : Option StripeEvent :=
  match sig with
  | none => none
  | some s => if s == mac secret raw then parse raw else none

/-- Stateful upsertCustomerInvoiceDefaults (first revision): retrieve the
customer to merge idempotently, then update it. A failing retrieve throws. -/
def upsertCustomerStepV1 (st : StripeState) (customerId : String)
    (companyName taxNumber : Option String) : ProcResult StripeState :=
  match lookupKey st.customers customerId with
  | none => .err "customer_not_found" st [.customersRetrieve customerId]
  | some c =>
    let c2 := upsertCustomerInvoiceDefaults c companyName taxNumber
    .ok { st with customers := updateEntry st.customers customerId c2 }
      [.customersRetrieve customerId, .customersUpdate customerId]

/-- Stateful ensureInvoiceHasCompanyAndVat (first revision): retrieve the
invoice, compute the patch, and only issue `invoices.update` when the patch is
non-empty (after finalization the function returns without any update). -/
def ensureInvoiceStepV1 (st : StripeState) (invoiceId : String)
    (companyName taxNumber : Option String) (skip : Bool) : ProcResult StripeState :=
  match lookupKey st.invoices invoiceId with
  | none => .err "invoice_not_found" st [.invoicesRetrieve invoiceId]
  | some inv =>
    match ensureInvoiceHasCompanyAndVat inv companyName taxNumber skip with
    | none => .ok st [.invoicesRetrieve invoiceId]
    | some p =>
      .ok { st with invoices := updateEntry st.invoices invoiceId (applyInvoicePatch inv p) }
        [.invoicesRetrieve invoiceId, .invoicesUpdate invoiceId]

/-- The `session?.invoice?.id ?? session?.subscription?.latest_invoice ?? null`
chain of the first revision. -/
def candidateInvoiceIdOf (s : SessionObj) : Option String :=
  match s.invoiceId with
  | some i => some i
  | none => s.latestInvoiceId

/-- The switch body of api/stripe-webhook.js (first revision): re-fetch the
completed session, enrich the customer, enrich a still-editable invoice; on
invoice.created pull defaults from the customer; invoice.finalized only logs. -/
def processEventV1 (st : StripeState) (ev : StripeEvent) : ProcResult StripeState :=
  match ev.data with
  | .sessionCompleted s0 =>
    match lookupKey st.sessions s0.id with
    | none => .err "session_not_found" st [.sessionsRetrieve s0.id]
    | some s =>
      let calls0 := [StripeCall.sessionsRetrieve s0.id]
      let fields := readCompanyAndVatFromSession s.custom_fields
      let step2 : ProcResult StripeState :=
        if jsTruthy s.customer then
          upsertCustomerStepV1 st (s.customer.getD "") fields.1 fields.2
        else .ok st []
      match step2 with
      | .err m st2 c2 => .err m st2 (calls0 ++ c2)
      | .ok st2 c2 =>
        match candidateInvoiceIdOf s with
        | none => .ok st2 (calls0 ++ c2)
        | some iid =>
          match ensureInvoiceStepV1 st2 iid fields.1 fields.2 false with
          | .err m st3 c3 => .err m st3 (calls0 ++ c2 ++ c3)
          | .ok st3 c3 => .ok st3 (calls0 ++ c2 ++ c3)
  | .invoiceCreated inv =>
    if inv.status == "draft" || inv.status == "open" then
      if jsTruthy inv.customer then
        match lookupKey st.customers (inv.customer.getD "") with
        | none => .err "customer_not_found" st [.customersRetrieve (inv.customer.getD "")]
        | some c =>
          let companyName :=
            match lookupKey c.metadata "company_name" with
            | some v => if v == "" then none else some v
            | none => none
          let taxNumber :=
            match lookupKey c.metadata "tax_number" with
            | some v => if v == "" then none else some v
            | none => none
          let hasCF := !(c.invoiceCustomFields.isEmpty)
          match ensureInvoiceStepV1 st inv.id companyName taxNumber hasCF with
          | .err m st2 c2 => .err m st2 (StripeCall.customersRetrieve (inv.customer.getD "") :: c2)
          | .ok st2 c2 => .ok st2 (StripeCall.customersRetrieve (inv.customer.getD "") :: c2)
      else .ok st []
    else .ok st []
  | .invoiceFinalized _ => .ok st []
  | .other _ => .ok st []

/-- An HTTP response, reduced to its status code. -/
structure HttpResponse where
  status : Nat
deriving DecidableEq, Repr

/-- An inbound webhook request: method, raw body and the stripe-signature
header. -/
structure WebhookReq where
  method : String
  rawBody : String
  sigHeader : Option String
deriving DecidableEq, Repr

/-- The environment the Event Receiver reads. -/
structure WebhookEnv where
  stripeSecret : Option String
  webhookSecret : Option String
deriving DecidableEq, Repr

/-- api/stripe-webhook.js, first revision: 405 on non-POST, 500 on missing
secrets, 400 on signature failure, otherwise run the switch; a thrown
downstream error is logged and acknowledged with 200. -/
def stripeWebhookHandlerV1 (env : WebhookEnv) (mac : String → String → String)
    (parse : String → Option StripeEvent) (req : WebhookReq) (st : StripeState) :
    HttpResponse × StripeState × List StripeCall :=
  if !(req.method == "POST") then (⟨405⟩, st, [])
  else if !(jsTruthy env.stripeSecret && jsTruthy env.webhookSecret) then (⟨500⟩, st, [])
  else
    match constructEvent mac parse req.rawBody req.sigHeader (env.webhookSecret.getD "") with
    | none => (⟨400⟩, st, [])
    | some ev =>
      match processEventV1 st ev with
      | .ok st2 calls => (⟨200⟩, st2, calls)
      | .err _ st2 calls => (⟨200⟩, st2, calls)

/-- getCustomField of the second revision: exact key match, value nullified
when empty (`f?.text?.value || null`). -/
def getCustomField (fields : List SessionField) (key : String) : Option String :=
  match fields.find? (fun f => f.key == key) with
  | none => none
  | some f =>
    match f.value with
    | none => none
    | some v => if v == "" then none else some v

/-- Read a metadata value the way the second revision does
(`cust?.metadata?.key || null`). -/
def metaValue (c : Customer) (k : String) : Option String :=
  match lookupKey c.metadata k with
  | some v => if v == "" then none else some v
  | none => none

/-- The switch body of api/stripe-webhook.js (second revision): write company
name / tax id onto the customer straight from the event object; on
invoice.created and invoice.finalized patch the invoice head, swallowing
failures of the individual update calls. -/
def processEventV2 (st : StripeState) (ev : StripeEvent) : ProcResult StripeState :=
  match ev.data with
  | .sessionCompleted s =>
    if !(jsTruthy s.customer) then .ok st []
    else
      let cid := s.customer.getD ""
      let companyName := getCustomField s.custom_fields "company_name"
      let taxNumber := getCustomField s.custom_fields "company_tax_number"
      if jsTruthy companyName || jsTruthy taxNumber then
        match lookupKey st.customers cid with
        | none => .err "customer_not_found" st [.customersUpdate cid]
        | some c =>
          let meta := c.metadata
          let meta := if jsTruthy companyName then setKey meta "company_name" (companyName.getD "") else meta
          let meta := if jsTruthy taxNumber then setKey meta "vat_or_tax_id" (taxNumber.getD "") else meta
          let c2 := { c with metadata := meta,
                             name := if jsTruthy companyName then companyName else c.name }
          .ok { st with customers := updateEntry st.customers cid c2 } [.customersUpdate cid]
      else .ok st []
  | .invoiceCreated inv =>
    if !(jsTruthy inv.customer) then .ok st []
    else
      let cid := inv.customer.getD ""
      match lookupKey st.customers cid with
      | none => .err "customer_not_found" st [.customersRetrieve cid]
      | some cust =>
        let companyName := metaValue cust "company_name"
        let taxId := metaValue cust "vat_or_tax_id"
        let nameStep : StripeState × List StripeCall :=
          if jsTruthy companyName && !(cust.name == companyName) then
            ({ st with customers := updateEntry st.customers cid { cust with name := companyName } },
             [StripeCall.customersUpdate cid])
          else (st, [])
        let st1 := nameStep.1
        let cf := inv.custom_fields
        let toAdd : List CustomFieldKV :=
          (if jsTruthy companyName && !(cf.any (fun x => x.name == "Company")) then
            [CustomFieldKV.mk "Company" (companyName.getD "")] else [])
          ++ (if jsTruthy taxId && !(cf.any (fun x => x.name == "Tax ID")) then
            [CustomFieldKV.mk "Tax ID" (taxId.getD "")] else [])
        if toAdd.isEmpty then
          .ok st1 (StripeCall.customersRetrieve cid :: nameStep.2)
        else
          match lookupKey st1.invoices inv.id with
          | none =>
            .ok st1 (StripeCall.customersRetrieve cid :: nameStep.2 ++ [StripeCall.invoicesUpdate inv.id])
          | some cur =>
            let cur2 := { cur with custom_fields := cf ++ toAdd }
            .ok { st1 with invoices := updateEntry st1.invoices inv.id cur2 }
              (StripeCall.customersRetrieve cid :: nameStep.2 ++ [StripeCall.invoicesUpdate inv.id])
  | .invoiceFinalized inv =>
    if !(inv.custom_fields.isEmpty) then .ok st []
    else if !(jsTruthy inv.customer) then .ok st []
    else
      let cid := inv.customer.getD ""
      match lookupKey st.customers cid with
      | none => .err "customer_not_found" st [.customersRetrieve cid]
      | some cust =>
        let companyName := metaValue cust "company_name"
        let taxId := metaValue cust "vat_or_tax_id"
        let cf : List CustomFieldKV :=
          (if jsTruthy companyName then [CustomFieldKV.mk "Company" (companyName.getD "")] else [])
          ++ (if jsTruthy taxId then [CustomFieldKV.mk "Tax ID" (taxId.getD "")] else [])
        if cf.isEmpty then .ok st [.customersRetrieve cid]
        else
          match lookupKey st.invoices inv.id with
          | none => .ok st [.customersRetrieve cid, .invoicesUpdate inv.id]
          | some cur =>
            .ok { st with invoices := updateEntry st.invoices inv.id { cur with custom_fields := cf } }
              [.customersRetrieve cid, .invoicesUpdate inv.id]
  | .other _ => .ok st []

/-- api/stripe-webhook.js, second revision: identical verification pipeline,
but a thrown downstream error is answered with 500 (deliberately not 2xx, so
that the provider redelivers the event). -/
def stripeWebhookHandlerV2 (env : WebhookEnv) (mac : String → String → String)
    (parse : String → Option StripeEvent) (req : WebhookReq) (st : StripeState) :
    HttpResponse × StripeState × List StripeCall :=
  if !(req.method == "POST") then (⟨405⟩, st, [])
  else if !(jsTruthy env.stripeSecret && jsTruthy env.webhookSecret) then (⟨500⟩, st, [])
  else
    match constructEvent mac parse req.rawBody req.sigHeader (env.webhookSecret.getD "") with
    | none => (⟨400⟩, st, [])
    | some ev =>
      match processEventV2 st ev with
      | .ok st2 calls => (⟨200⟩, st2, calls)
      | .err _ st2 calls => (⟨500⟩, st2, calls)

/-- Provider state for the part_010 webhook revision: resources plus the set
of idempotency keys the provider has already consumed. -/
structure WH10State where
  sessions : List (String × SessionObj)
  customers : List (String × Customer)
  invoices : List (String × Invoice)
  usedKeys : List String
deriving DecidableEq, Repr

/-- Trim a nullable string to null when blank, as the part_010 helpers do
(`value?.trim() || null`). -/
def trimToNull : Option String → Option String
  | none => none
  | some s => let t := jsTrim s; if t == "" then none else some t

/-- getCompanyFieldsFromSession (part_010): exact key match on company_name /
company_tax_number, later occurrences win, blank values become null. -/
def getCompanyFieldsFromSession (fields : List SessionField) : Option String × Option String :=
  fields.foldl
    (fun acc f =>
      let acc := if f.key == "company_name" then (trimToNull f.value, acc.2) else acc
      if f.key == "company_tax_number" then (acc.1, trimToNull f.value) else acc)
    (none, none)

/-- buildInvoiceCustomFields (part_010): only present values, null when the
resulting array would be empty. -/
def buildInvoiceCustomFields (companyName taxNumber : Option String) : Option (List CustomFieldKV) :=
  let arr := (if jsTruthy companyName then [CustomFieldKV.mk "Company" (companyName.getD "")] else [])
          ++ (if jsTruthy taxNumber then [CustomFieldKV.mk "Tax ID" (taxNumber.getD "")] else [])
  if arr.isEmpty then none else some arr

/-- stripe.invoices.update guarded by an idempotency key: a repeated key is a
provider-level no-op (the cached first response is replayed), a fresh key
patches the invoice custom fields. The HTTP call is recorded either way. -/
def invoicesUpdateKeyed (st : WH10State) (invoiceId : String)
    (cf : Option (List CustomFieldKV)) (key : String) : ProcResult WH10State :=
  if st.usedKeys.contains key then .ok st [.invoicesUpdate invoiceId]
  else
    match lookupKey st.invoices invoiceId with
    | none => .err "invoice_not_found" st [.invoicesUpdate invoiceId]
    | some inv =>
      let inv2 := match cf with | some l => { inv with custom_fields := l } | none => inv
      .ok { st with invoices := updateEntry st.invoices invoiceId inv2,
                    usedKeys := key :: st.usedKeys }
        [.invoicesUpdate invoiceId]

/-- stripe.invoices.finalizeInvoice guarded by an idempotency key: a repeated
key is a provider-level no-op; a fresh key finalizes a draft invoice (status
becomes open, the finalization timestamp is set) and errors on any invoice
that is not a draft. The HTTP call is recorded either way. -/
def finalizeInvoiceKeyed (st : WH10State) (invoiceId : String) (key : String) :
    ProcResult WH10State :=
  if st.usedKeys.contains key then .ok st [.invoicesFinalize invoiceId]
  else
    match lookupKey st.invoices invoiceId with
    | none => .err "invoice_not_found" st [.invoicesFinalize invoiceId]
    | some inv =>
      if inv.status == "draft" then
        let inv2 := { inv with status := "open", finalized_at := some 1 }
        .ok { st with invoices := updateEntry st.invoices invoiceId inv2,
                      usedKeys := key :: st.usedKeys }
          [.invoicesFinalize invoiceId]
      else .err "invoice_already_finalized" st [.invoicesFinalize invoiceId]

/-- applyFieldsAndFinalizeInvoice (part_010): nothing to do when no field
value is present; otherwise update the invoice custom fields under the
`inv-update-` key and, when the snapshot status is draft or open, finalize it
under the `inv-finalize-` key — both keys scoped to (invoice id, event id). -/
def applyFieldsAndFinalizeInvoice (st : WH10State) (invoice : Invoice)
    (companyName taxNumber : Option String) (eventId : String) : ProcResult WH10State :=
  let customFields := buildInvoiceCustomFields companyName taxNumber
  if customFields.isNone && !(jsTruthy companyName) then .ok st []
  else
    match invoicesUpdateKeyed st invoice.id customFields ("inv-update-" ++ invoice.id ++ "-" ++ eventId) with
    | .err m st2 c2 => .err m st2 c2
    | .ok st2 c2 =>
      if invoice.status == "draft" || invoice.status == "open" then
        match finalizeInvoiceKeyed st2 invoice.id ("inv-finalize-" ++ invoice.id ++ "-" ++ eventId) with
        | .err m st3 c3 => .err m st3 (c2 ++ c3)
        | .ok st3 c3 => .ok st3 (c2 ++ c3)
      else .ok st2 c2

/-- stashFieldsOnCustomer (part_010): store the checkout values in customer
metadata under an idempotency key, skipping the call when nothing is set. -/
def stashFieldsOnCustomer (st : WH10State) (customerId : String)
    (companyName taxNumber : Option String) (eventId : String) : ProcResult WH10State :=
  let meta := (if jsTruthy companyName then [("company_name_from_checkout", companyName.getD "")] else [])
           ++ (if jsTruthy taxNumber then [("company_tax_number_from_checkout", taxNumber.getD "")] else [])
  if meta.isEmpty then .ok st []
  else
    let key := "cust-stash-" ++ customerId ++ "-" ++ eventId
    if st.usedKeys.contains key then .ok st [.customersUpdate customerId]
    else
      match lookupKey st.customers customerId with
      | none => .err "customer_not_found" st [.customersUpdate customerId]
      | some c =>
        let m := meta.foldl (fun acc kv => setKey acc kv.1 kv.2) c.metadata
        let c2 := { c with metadata := m }
        .ok { st with customers := updateEntry st.customers customerId c2,
                      usedKeys := key :: st.usedKeys }
          [.customersUpdate customerId]

/-- readStashedFieldsFromCustomer (part_010). -/
def readStashedFieldsFromCustomer (c : Customer) : Option String × Option String :=
  (trimToNull (lookupKey c.metadata "company_name_from_checkout"),
   trimToNull (lookupKey c.metadata "company_tax_number_from_checkout"))

/-- findLatestDraftInvoiceForCustomer (part_010): the first draft invoice of
the customer, if any. -/
def findLatestDraftInvoiceForCustomer (st : WH10State) (customerId : String) : Option Invoice :=
  ((st.invoices.map (fun p => p.2)).filter
    (fun i => i.customer == some customerId && i.status == "draft")).head?

/-- The checkout.session.completed branch of part_010: re-fetch the session,
read the fields, prefer the session invoice (falling back to the latest draft
invoice of the customer), apply-and-finalize when an invoice is at hand, and
otherwise stash the fields on the customer. -/
def processCheckoutCompleted10 (st : WH10State) (eventId sessionId : String) :
    ProcResult WH10State :=
  match lookupKey st.sessions sessionId with
  | none => .err "session_not_found" st [.sessionsRetrieve sessionId]
  | some s =>
    let calls0 := [StripeCall.sessionsRetrieve sessionId]
    let fields := getCompanyFieldsFromSession s.custom_fields
    let customerId := s.customer
    let invoice0 : Option Invoice :=
      match s.invoiceId with
      | some iid => lookupKey st.invoices iid
      | none => none
    let probe : Option Invoice × List StripeCall :=
      match invoice0 with
      | some i => (some i, [])
      | none =>
        if jsTruthy customerId then
          (findLatestDraftInvoiceForCustomer st (customerId.getD ""),
           [StripeCall.invoicesList (customerId.getD "")])
        else (none, [])
    match probe.1 with
    | some inv =>
      match applyFieldsAndFinalizeInvoice st inv fields.1 fields.2 eventId with
      | .ok st2 c2 => .ok st2 (calls0 ++ probe.2 ++ c2)
      | .err m st2 c2 => .err m st2 (calls0 ++ probe.2 ++ c2)
    | none =>
      if jsTruthy customerId then
        match stashFieldsOnCustomer st (customerId.getD "") fields.1 fields.2 eventId with
        | .ok st2 c2 => .ok st2 (calls0 ++ probe.2 ++ c2)
        | .err m st2 c2 => .err m st2 (calls0 ++ probe.2 ++ c2)
      else .ok st (calls0 ++ probe.2)

/-- The switch body of part_010: completed sessions go through
`processCheckoutCompleted10`; a draft invoice with auto_advance disabled pulls
the stashed customer fields; everything else is ignored. -/
def processEvent10 (st : WH10State) (ev : StripeEvent) : ProcResult WH10State :=
  match ev.data with
  | .sessionCompleted s => processCheckoutCompleted10 st ev.id s.id
  | .invoiceCreated inv =>
    if !(inv.status == "draft") then .ok st []
    else if inv.auto_advance then .ok st []
    else if !(jsTruthy inv.customer) then .ok st []
    else
      let cid := inv.customer.getD ""
      match lookupKey st.customers cid with
      | none => .err "customer_not_found" st [.customersRetrieve cid]
      | some customer =>
        let fields := readStashedFieldsFromCustomer customer
        if !(jsTruthy fields.1) && !(jsTruthy fields.2) then .ok st [.customersRetrieve cid]
        else
          match applyFieldsAndFinalizeInvoice st inv fields.1 fields.2 ev.id with
          | .ok st2 c2 => .ok st2 (StripeCall.customersRetrieve cid :: c2)
          | .err m st2 c2 => .err m st2 (StripeCall.customersRetrieve cid :: c2)
  | .invoiceFinalized _ => .ok st []
  | .other _ => .ok st []

/-- part_010 webhook handler: 405 on non-POST, 400 on signature failure, and
200 in every other case — a thrown downstream error is deliberately swallowed
(the internal calls are idempotency-keyed). -/
def stripeWebhookHandler10 (mac : String → String → String)
    (parse : String → Option StripeEvent) (endpointSecret : String)
    (req : WebhookReq) (st : WH10State) : HttpResponse × WH10State × List StripeCall :=
  if !(req.method == "POST") then (⟨405⟩, st, [])
  else
    match constructEvent mac parse req.rawBody req.sigHeader endpointSecret with
    | none => (⟨400⟩, st, [])
    | some ev =>
      match processEvent10 st ev with
      | .ok st2 calls => (⟨200⟩, st2, calls)
      | .err _ st2 calls => (⟨200⟩, st2, calls)

/-- The CORS allow-list of api/checkout-session.js and api/confirm-session.js. -/
def checkoutAllowedOrigins : List String :=
  ["https://ai-business-engine.com",
   "https://www.ai-business-engine.com",
   "https://baramiai-c98bd4c508b71b1b1c91ae95c029fc.webflow.io"]

/-- The CORS allow-list of api/track.js. -/
def trackAllowedOrigins : List String :=
  ["https://ai-business-engine.com",
   "https://DEIN-STAGING.webflow.io"]

/-- The CORS header block every handler emits: Access-Control-Allow-Origin
only for allow-listed origins, Allow-Methods and Allow-Headers always. -/
def setCorsHeaders (allowed : List String) (origin : String) : List (String × String) :=
  (if allowed.contains origin then [("Access-Control-Allow-Origin", origin)] else [])
    ++ [("Access-Control-Allow-Methods", "POST, OPTIONS"),
        ("Access-Control-Allow-Headers", "Content-Type")]

/-- The environment api/checkout-session.js reads. -/
structure CheckoutEnv where
  STRIPE_SECRET_KEY : Option String
  PRICE_ONE_TIME : Option String
  PRICE_SPLIT_2 : Option String
  PRICE_SPLIT_3 : Option String
deriving DecidableEq, Repr

/-- The JSON body of a Session Initiator request (absent fields are `none`;
the handler supplies the JS destructuring defaults). -/
structure CheckoutBody where
  plan : Option String
  email : Option String
  name : Option String
  thankYouUrl : Option String
deriving DecidableEq, Repr

/-- The plan-to-price map of api/checkout-session.js: legacy keys and frontend
keys share the three configured price ids; anything else is unmapped. -/
def priceMapOf (env : CheckoutEnv) (plan : String) : Option String :=
  match plan with
  | "one_time" => env.PRICE_ONE_TIME
  | "split_2" => env.PRICE_SPLIT_2
  | "split_3" => env.PRICE_SPLIT_3
  | "aibe_pif" => env.PRICE_ONE_TIME
  | "aibe_split_2" => env.PRICE_SPLIT_2
  | "aibe_split_3" => env.PRICE_SPLIT_3
  | _ => none

/-- The plan identifiers the Session Initiator maps to a price. -/
def supportedPlans : List String :=
  ["one_time", "split_2", "split_3", "aibe_pif", "aibe_split_2", "aibe_split_3"]

/-- The subscription test of api/checkout-session.js. -/
def isSubscriptionPlan (plan : String) : Bool :=
  ["split_2", "aibe_split_2", "split_3", "aibe_split_3"].contains plan

/-- Billing mode derived from the plan: installment plans are subscriptions,
everything else is a one-time payment. -/
def billingModeOf (plan : String) : String :=
  if isSubscriptionPlan plan then "subscription" else "payment"

/-- Price and billing-mode resolution of the Session Initiator: a plan
resolves only when its mapped price id is set and non-empty. -/
def resolvePlan (env : CheckoutEnv) (plan : String) : Option (String × String) :=
  if jsTruthy (priceMapOf env plan) then
    some ((priceMapOf env plan).getD "", billingModeOf plan)
  else none

/-- What a Session Initiator invocation produced: the HTTP response, the
response headers, and the provider calls issued. -/
structure CheckoutResult where
  response : HttpResponse
  headers : List (String × String)
  calls : List StripeCall
deriving DecidableEq, Repr

/-- api/checkout-session.js (first revision): CORS headers, method guards,
fail-closed secret check, plan resolution (400 for an unmapped or unpriced
plan, before any provider call), optional customer lookup or creation by
email, then the session-creation call with the resolved price and mode. -/
def checkoutSessionHandler (env : CheckoutEnv) (customersDb : List Customer)
    (freshCustomerId : String) (origin method : String) (body : CheckoutBody) :
    CheckoutResult :=
  let headers := setCorsHeaders checkoutAllowedOrigins origin
  if method == "OPTIONS" then ⟨⟨200⟩, headers, []⟩
  else if !(method == "POST") then ⟨⟨405⟩, headers, []⟩
  else if !(jsTruthy env.STRIPE_SECRET_KEY) then ⟨⟨500⟩, headers, []⟩
  else
    let plan := body.plan.getD "one_time"
    let email := body.email.getD ""
    let name := body.name.getD ""
    match resolvePlan env plan with
    | none => ⟨⟨400⟩, headers, []⟩
    | some pm =>
      let custCalls : List StripeCall :=
        if email == "" then []
        else
          match customersDb.find? (fun c => c.email == some email) with
          | some found =>
            if !(name == "") && !(jsTruthy found.name) then
              [.customersList email, .customersUpdate found.id]
            else [.customersList email]
          | none => [.customersList email, .customersCreate email]
      let _ := freshCustomerId
      ⟨⟨200⟩, headers, custCalls ++ [.sessionsCreate pm.1 pm.2]⟩

/-- updateInvoiceCustomerFace (part_006, second revision): `none` when the
invoice status blocks the call entirely, otherwise the customer_name patch
sent to `invoices.update` (the call is issued even when the patch is empty);
`company || fallbackName` picks the first truthy value. -/
def updateInvoiceCustomerFace (inv : Invoice) (company fallbackName : Option String) :
    Option (Option String) :=
  if !(inv.status == "draft" || inv.status == "open" || inv.status == "uncollectible") then none
  else
    some (if jsTruthy company || jsTruthy fallbackName then
            (if jsTruthy company then company else fallbackName)
          else none)

/-- Effect of the `invoices.update` issued by updateInvoiceCustomerFace. -/
def applyCustomerFacePatch (inv : Invoice) (patch : Option String) : Invoice :=
  { inv with customer_name := match patch with | some c => some c | none => inv.customer_name }

/-- A checkout session as the Confirmation Poller (part_012) reads it back. -/
structure CheckoutSessionView where
  id : String
  mode : String
  status : String
  payment_status : String
  currency : String
  amount_total : Int
  customer : Option String
  subscription : Option String
  invoiceId : Option String
  hosted_invoice_url : Option String
  invoice_pdf : Option String
  custom_fields : List SessionField
deriving DecidableEq, Repr

/-- The read-only JSON body the Confirmation Poller returns. -/
structure ConfirmBody where
  id : String
  mode : String
  status : String
  payment_status : String
  currency : String
  amount_total : Int
  customer_id : Option String
  subscription_id : Option String
  invoice_id : Option String
  hosted_invoice_url : Option String
  invoice_pdf : Option String
  custom_fields : List (String × Option String)
deriving DecidableEq, Repr

/-- The field projection of api/confirm-session.js (part_012). -/
def confirmBodyOf (s : CheckoutSessionView) : ConfirmBody :=
  { id := s.id
    mode := s.mode
    status := s.status
    payment_status := s.payment_status
    currency := s.currency
    amount_total := s.amount_total
    customer_id := s.customer
    subscription_id := s.subscription
    invoice_id := s.invoiceId
    hosted_invoice_url := s.hosted_invoice_url
    invoice_pdf := s.invoice_pdf
    custom_fields := s.custom_fields.map (fun f => (f.key, f.value)) }

/-- Result of a Confirmation Poller invocation. -/
structure ConfirmResult where
  response : HttpResponse
  body : Option ConfirmBody
  calls : List StripeCall
  headers : List (String × String)
deriving DecidableEq, Repr

/-- api/confirm-session.js (part_012): CORS, method guards, secret check,
session_id required, then one read-only sessions.retrieve whose fields are
echoed back; nothing is relayed anywhere, and a missing session throws into
the catch (500). -/
def confirmSessionHandler (stripeSecret : Option String)
    (sessionsDb : List (String × CheckoutSessionView)) (origin method : String)
    (sessionId : Option String) : ConfirmResult :=
  let headers := setCorsHeaders checkoutAllowedOrigins origin
  if method == "OPTIONS" then ⟨⟨200⟩, none, [], headers⟩
  else if !(method == "POST") then ⟨⟨405⟩, none, [], headers⟩
  else if !(jsTruthy stripeSecret) then ⟨⟨500⟩, none, [], headers⟩
  else if !(jsTruthy sessionId) then ⟨⟨400⟩, none, [], headers⟩
  else
    let sid := sessionId.getD ""
    match lookupKey sessionsDb sid with
    | none => ⟨⟨500⟩, none, [.sessionsRetrieve sid], headers⟩
    | some s => ⟨⟨200⟩, some (confirmBodyOf s), [.sessionsRetrieve sid], headers⟩

/-- A JSON value, reduced to what the tracking relay payload needs. -/
inductive JsonVal where
  | str (s : String)
  | num (n : Int)
deriving DecidableEq, Repr

/-- A JSON object as an ordered key-value list. -/
abbrev JsonObj := List (String × JsonVal)

/-- JS object-literal insertion: overwrite the value of an existing key in
place, otherwise append the key. -/
def objInsert (o : JsonObj) (k : String) (v : JsonVal) : JsonObj :=
  if o.any (fun p => p.1 == k) then o.map (fun p => if p.1 == k then (k, v) else p)
  else o ++ [(k, v)]

/-- JS spread of an object into an object literal: later keys win. -/
def objSpread (base : JsonObj) : JsonObj → JsonObj
  | [] => base
  | kv :: rest => objSpread (objInsert base kv.1 kv.2) rest

/-- The relay payload of api/track.js:
project and receivedAt first, then the client body spread over them. -/
def trackPayload (now : Int) (body : JsonObj) : JsonObj :=
  objSpread [("project", JsonVal.str "aibe-checkout"), ("receivedAt", JsonVal.num now)] body

/-- Result of a tracking-relay invocation: the HTTP response, the response
headers, and the downstream POST (url and JSON payload), if one was sent. -/
structure TrackResult where
  response : HttpResponse
  headers : List (String × String)
  relay : Option (String × JsonObj)
deriving DecidableEq, Repr

/-- api/track.js: CORS, method guards, 500 when WEBHOOK_URL is unset,
otherwise forward the merged payload to the configured webhook URL. -/
def trackHandler (webhookUrl : Option String) (now : Int) (origin method : String)
    (body : JsonObj) : TrackResult :=
  let headers := setCorsHeaders trackAllowedOrigins origin
  if method == "OPTIONS" then ⟨⟨200⟩, headers, none⟩
  else if !(method == "POST") then ⟨⟨405⟩, headers, none⟩
  else if !(jsTruthy webhookUrl) then ⟨⟨500⟩, headers, none⟩
  else ⟨⟨200⟩, headers, some (webhookUrl.getD "", trackPayload now body)⟩

/-- A truthy optional string has a non-empty payload. -/
theorem jsTruthy_getD {o : Option String} (h : jsTruthy o = true) : o.getD "" ≠ "" := by
  cases o with
  | none => simp [jsTruthy] at h
  | some s =>
    simp only [jsTruthy, Bool.not_eq_true'] at h
    simpa [Option.getD] using (by simpa using h : ¬ s = "")

/-- C1: a request whose body/signature pair fails verification is answered
with 400 and triggers no provider call at all — neither in the primary
revision of the Event Receiver nor in the part_010 revision: the provider
state is returned untouched and the call trace is empty. -/
theorem C1_unverified_webhook_rejected_without_mutation :
    (∀ (env : WebhookEnv) (mac : String → String → String)
        (parse : String → Option StripeEvent) (req : WebhookReq) (st : StripeState),
      req.method = "POST" →
      jsTruthy env.stripeSecret = true →
      jsTruthy env.webhookSecret = true →
      constructEvent mac parse req.rawBody req.sigHeader (env.webhookSecret.getD "") = none →
      stripeWebhookHandlerV1 env mac parse req st = (⟨400⟩, st, [])) ∧
    (∀ (mac : String → String → String) (parse : String → Option StripeEvent)
        (endpointSecret : String) (req : WebhookReq) (st : WH10State),
      req.method = "POST" →
      constructEvent mac parse req.rawBody req.sigHeader endpointSecret = none →
      stripeWebhookHandler10 mac parse endpointSecret req st = (⟨400⟩, st, [])) := by
  constructor
  · intro env mac parse req st hm h1 h2 hv
    simp [stripeWebhookHandlerV1, hm, h1, h2, hv]
  · intro mac parse endpointSecret req st hm hv
    simp [stripeWebhookHandler10, hm, hv]

/-- Concrete instantiation of `C1_unverified_webhook_rejected_without_mutation`:
an empty-signature request under concrete secrets is rejected with 400 by both
embedded revisions, with an empty call trace. -/
theorem C1_witness :
    stripeWebhookHandlerV1 ⟨some "sk_1", some "whsec_1"⟩ (fun sec raw => sec ++ ":" ++ raw)
        (fun _ => none) ⟨"POST", "payload", none⟩ ⟨[], [], []⟩ = (⟨400⟩, ⟨[], [], []⟩, []) ∧
    stripeWebhookHandler10 (fun sec raw => sec ++ ":" ++ raw) (fun _ => none)
        "whsec_1" ⟨"POST", "payload", none⟩ ⟨[], [], [], []⟩ = (⟨400⟩, ⟨[], [], [], []⟩, []) := by
  exact ⟨C1_unverified_webhook_rejected_without_mutation.1 ⟨some "sk_1", some "whsec_1"⟩
      (fun sec raw => sec ++ ":" ++ raw) (fun _ => none) ⟨"POST", "payload", none⟩
      ⟨[], [], []⟩ rfl (by decide) (by decide) rfl,
    C1_unverified_webhook_rejected_without_mutation.2 (fun sec raw => sec ++ ":" ++ raw)
      (fun _ => none) "whsec_1" ⟨"POST", "payload", none⟩ ⟨[], [], [], []⟩ rfl rfl⟩

/-- C3 (amended): in the primary Event Receiver revision, applying the Billing
Supplement to an invoice that is past the draft state (open with a
finalization timestamp, or paid / void / uncollectible) is a no-op that
returns without error: the patch is `none`, the only call issued is the
read-only retrieve, and the provider state is unchanged. -/
theorem C3_nondraft_invoice_mutation_noop_V1
    (st : StripeState) (invoiceId : String) (inv : Invoice)
    (companyName taxNumber : Option String) (skip : Bool)
    (hlook : lookupKey st.invoices invoiceId = some inv)
    (hstat : inv.status = "open" ∨ inv.status = "paid" ∨ inv.status = "void" ∨
      inv.status = "uncollectible")
    (hfin : inv.status = "open" → inv.finalized_at.isSome = true) :
    ensureInvoiceHasCompanyAndVat inv companyName taxNumber skip = none ∧
    ensureInvoiceStepV1 st invoiceId companyName taxNumber skip =
      .ok st [.invoicesRetrieve invoiceId] := by
  have hpure : ensureInvoiceHasCompanyAndVat inv companyName taxNumber skip = none := by
    rcases hstat with h | h | h | h
    · simp [ensureInvoiceHasCompanyAndVat, h, hfin h]
    · simp [ensureInvoiceHasCompanyAndVat, h]
    · simp [ensureInvoiceHasCompanyAndVat, h]
    · simp [ensureInvoiceHasCompanyAndVat, h]
  refine ⟨hpure, ?_⟩
  simp [ensureInvoiceStepV1, hlook, hpure]

/-- Concrete instantiation of `C3_nondraft_invoice_mutation_noop_V1` at a paid
invoice: no patch, no update call, unchanged state. -/
theorem C3_witness :
    ensureInvoiceHasCompanyAndVat
      ⟨"in_3w", "paid", some "cus_3w", none, [], some 5, false⟩
      (some "Acme GmbH") (some "DE123456789") false = none ∧
    ensureInvoiceStepV1
      ⟨[], [], [("in_3w", ⟨"in_3w", "paid", some "cus_3w", none, [], some 5, false⟩)]⟩
      "in_3w" (some "Acme GmbH") (some "DE123456789") false =
      .ok ⟨[], [], [("in_3w", ⟨"in_3w", "paid", some "cus_3w", none, [], some 5, false⟩)]⟩
        [.invoicesRetrieve "in_3w"] :=
  C3_nondraft_invoice_mutation_noop_V1
    ⟨[], [], [("in_3w", ⟨"in_3w", "paid", some "cus_3w", none, [], some 5, false⟩)]⟩
    "in_3w" ⟨"in_3w", "paid", some "cus_3w", none, [], some 5, false⟩
    (some "Acme GmbH") (some "DE123456789") false (by decide)
    (by decide) (by decide)

/-- The finalized (open) invoice on which the part_006 revision still issues
an update. -/
def c3OpenInvoice : Invoice :=
  { id := "in_3c", status := "open", customer := some "cus_3c", customer_name := none,
    custom_fields := [], finalized_at := some 7, auto_advance := false }

/-- C3 counterexample: the claim does not hold for every revision — the
part_006 `updateInvoiceCustomerFace` patches an invoice whose status is
`open` (not draft, already finalized): it issues an `invoices.update` carrying
a customer_name change, and the invoice is not left unchanged. -/
theorem C3_counterexample :
    c3OpenInvoice.status ≠ "draft" ∧
    c3OpenInvoice.finalized_at.isSome = true ∧
    updateInvoiceCustomerFace c3OpenInvoice (some "Acme GmbH") none = some (some "Acme GmbH") ∧
    applyCustomerFacePatch c3OpenInvoice (some "Acme GmbH") ≠ c3OpenInvoice := by
  decide

/-- C5 (amended, positive half): in the primary revision of the Event
Receiver, a verified and routed event whose downstream enrichment throws is
still acknowledged with HTTP 200. -/
theorem C5_enrichment_failure_still_acknowledged_V1
    (env : WebhookEnv) (mac : String → String → String)
    (parse : String → Option StripeEvent) (req : WebhookReq) (st : StripeState)
    (ev : StripeEvent) (m : String) (st2 : StripeState) (calls : List StripeCall)
    (hm : req.method = "POST")
    (h1 : jsTruthy env.stripeSecret = true)
    (h2 : jsTruthy env.webhookSecret = true)
    (hv : constructEvent mac parse req.rawBody req.sigHeader (env.webhookSecret.getD "") = some ev)
    (hp : processEventV1 st ev = .err m st2 calls) :
    (stripeWebhookHandlerV1 env mac parse req st).1.status = 200 := by
  simp [stripeWebhookHandlerV1, hm, h1, h2, hv, hp]

/-- The MAC used by the concrete C5 scenarios. -/
def c5Mac : String → String → String := fun sec raw => sec ++ ":" ++ raw

/-- A verified checkout.session.completed event whose enrichment throws
because the referenced resources are absent from the provider state. -/
def c5Event : StripeEvent :=
  { id := "evt_5",
    data := .sessionCompleted
      { id := "cs_5", customer := some "cus_5", invoiceId := none, latestInvoiceId := none,
        custom_fields := [{ key := "company_name", value := some "Acme GmbH" }] } }

/-- The parser used by the concrete C5 scenarios. -/
def c5Parse : String → Option StripeEvent := fun b => if b == "body5" then some c5Event else none

/-- The correctly signed request used by the concrete C5 scenarios. -/
def c5Req : WebhookReq := { method := "POST", rawBody := "body5", sigHeader := some "whsec_5:body5" }

/-- The environment used by the concrete C5 scenarios. -/
def c5Env : WebhookEnv := { stripeSecret := some "sk_5", webhookSecret := some "whsec_5" }

/-- Concrete instantiation of `C5_enrichment_failure_still_acknowledged_V1`:
the session retrieve of the enrichment step throws (the session is absent),
and the primary revision still answers 200. -/
theorem C5_witness :
    (stripeWebhookHandlerV1 c5Env c5Mac c5Parse c5Req ⟨[], [], []⟩).1.status = 200 :=
  C5_enrichment_failure_still_acknowledged_V1 c5Env c5Mac c5Parse c5Req ⟨[], [], []⟩
    c5Event "session_not_found" ⟨[], [], []⟩ [.sessionsRetrieve "cs_5"]
    rfl (by decide) (by decide) (by decide) (by decide)

/-- C5 counterexample: the claim fails on the second revision of
api/stripe-webhook.js, which deliberately answers a thrown enrichment error
with 500 (so that the provider redelivers): here the signature verifies, the
event is routed to the checkout.session.completed branch, the customer update
throws (customer absent), and the response status is 500, not 200. -/
theorem C5_counterexample :
    constructEvent c5Mac c5Parse c5Req.rawBody c5Req.sigHeader "whsec_5" = some c5Event ∧
    (stripeWebhookHandlerV2 c5Env c5Mac c5Parse c5Req ⟨[], [], []⟩).1.status = 500 ∧
    (500 : Nat) ≠ 200 := by
  refine ⟨by decide, by decide, by decide⟩

/-- A plan identifier outside the map of the Session Initiator yields no
price. -/
theorem priceMapOf_eq_none_of_unsupported (env : CheckoutEnv) (plan : String)
    (h : plan ∉ supportedPlans) : priceMapOf env plan = none := by
  unfold priceMapOf
  split <;> first
    | rfl
    | exact absurd (by decide) h

/-- C4: with the three price ids configured, every supported plan identifier
resolves to a non-empty price and its billing mode, the one-time plans map to
mode payment and the installment plans to mode subscription, and every
unsupported identifier is answered 400 with an empty provider-call trace. -/
theorem C4_plan_resolution (env : CheckoutEnv)
    (h0 : jsTruthy env.STRIPE_SECRET_KEY = true)
    (h1 : jsTruthy env.PRICE_ONE_TIME = true)
    (h2 : jsTruthy env.PRICE_SPLIT_2 = true)
    (h3 : jsTruthy env.PRICE_SPLIT_3 = true) :
    (∀ plan ∈ supportedPlans,
      ∃ price, price ≠ "" ∧ resolvePlan env plan = some (price, billingModeOf plan)) ∧
    (billingModeOf "one_time" = "payment" ∧ billingModeOf "aibe_pif" = "payment" ∧
     billingModeOf "split_2" = "subscription" ∧ billingModeOf "aibe_split_2" = "subscription" ∧
     billingModeOf "split_3" = "subscription" ∧ billingModeOf "aibe_split_3" = "subscription") ∧
    (∀ (plan : String) (db : List Customer) (fid origin : String) (body : CheckoutBody),
      plan ∉ supportedPlans → body.plan = some plan →
      checkoutSessionHandler env db fid origin "POST" body =
        ⟨⟨400⟩, setCorsHeaders checkoutAllowedOrigins origin, []⟩) := by
  refine ⟨?_, by decide, ?_⟩
  · intro plan hp
    simp only [supportedPlans, List.mem_cons, List.not_mem_nil, or_false] at hp
    rcases hp with rfl | rfl | rfl | rfl | rfl | rfl
    · exact ⟨_, jsTruthy_getD h1, by simp [resolvePlan, show priceMapOf env "one_time" = env.PRICE_ONE_TIME from rfl, h1]⟩
    · exact ⟨_, jsTruthy_getD h2, by simp [resolvePlan, show priceMapOf env "split_2" = env.PRICE_SPLIT_2 from rfl, h2]⟩
    · exact ⟨_, jsTruthy_getD h3, by simp [resolvePlan, show priceMapOf env "split_3" = env.PRICE_SPLIT_3 from rfl, h3]⟩
    · exact ⟨_, jsTruthy_getD h1, by simp [resolvePlan, show priceMapOf env "aibe_pif" = env.PRICE_ONE_TIME from rfl, h1]⟩
    · exact ⟨_, jsTruthy_getD h2, by simp [resolvePlan, show priceMapOf env "aibe_split_2" = env.PRICE_SPLIT_2 from rfl, h2]⟩
    · exact ⟨_, jsTruthy_getD h3, by simp [resolvePlan, show priceMapOf env "aibe_split_3" = env.PRICE_SPLIT_3 from rfl, h3]⟩
  · intro plan db fid origin body hns hbp
    simp [checkoutSessionHandler, hbp, h0, resolvePlan,
      priceMapOf_eq_none_of_unsupported env plan hns,
      show jsTruthy none = false from rfl]

/-- The fully configured environment of the C4 witness. -/
def c4Env : CheckoutEnv :=
  { STRIPE_SECRET_KEY := some "sk_live_4", PRICE_ONE_TIME := some "price_1x",
    PRICE_SPLIT_2 := some "price_2x", PRICE_SPLIT_3 := some "price_3x" }

/-- Concrete instantiation of `C4_plan_resolution`: split_3 resolves to a
subscription-mode price, and the unknown plan basic is answered 400 with no
provider call. -/
theorem C4_witness :
    (∃ price, price ≠ "" ∧ resolvePlan c4Env "split_3" = some (price, billingModeOf "split_3")) ∧
    checkoutSessionHandler c4Env [] "cus_w4" "" "POST"
        { plan := some "basic", email := none, name := none, thankYouUrl := none } =
      ⟨⟨400⟩, setCorsHeaders checkoutAllowedOrigins "", []⟩ :=
  ⟨(C4_plan_resolution c4Env (by decide) (by decide) (by decide) (by decide)).1
      "split_3" (by decide),
   (C4_plan_resolution c4Env (by decide) (by decide) (by decide) (by decide)).2.2
      "basic" [] "cus_w4" ""
      { plan := some "basic", email := none, name := none, thankYouUrl := none }
      (by decide) rfl⟩

/-- C8 (amended): a missing provider secret key makes the Session Initiator
fail closed with 500 before any provider call; but a missing price identifier
for a supported (or any) plan surfaces as the 400 Unknown-plan client error,
still before any provider call, not as a 5xx misconfiguration error. -/
theorem C8_misconfiguration_behavior :
    (∀ (env : CheckoutEnv) (db : List Customer) (fid origin : String) (body : CheckoutBody),
      jsTruthy env.STRIPE_SECRET_KEY = false →
      checkoutSessionHandler env db fid origin "POST" body =
        ⟨⟨500⟩, setCorsHeaders checkoutAllowedOrigins origin, []⟩) ∧
    (∀ (env : CheckoutEnv) (db : List Customer) (fid origin : String)
        (body : CheckoutBody) (plan : String),
      jsTruthy env.STRIPE_SECRET_KEY = true →
      body.plan = some plan →
      jsTruthy (priceMapOf env plan) = false →
      checkoutSessionHandler env db fid origin "POST" body =
        ⟨⟨400⟩, setCorsHeaders checkoutAllowedOrigins origin, []⟩) := by
  constructor
  · intro env db fid origin body h
    simp [checkoutSessionHandler, h]
  · intro env db fid origin body plan h0 hbp hpr
    simp [checkoutSessionHandler, hbp, h0, resolvePlan, hpr]

/-- The misconfigured environment of the C8 scenarios: secret key present,
PRICE_ONE_TIME unset. -/
def c8Env : CheckoutEnv :=
  { STRIPE_SECRET_KEY := some "sk_live_8", PRICE_ONE_TIME := none,
    PRICE_SPLIT_2 := some "price_2y", PRICE_SPLIT_3 := some "price_3y" }

/-- Concrete instantiation of `C8_misconfiguration_behavior`: a missing secret
key is answered 500 with no provider call, and the supported plan one_time
with its price id unset is answered 400 with no provider call. -/
theorem C8_witness :
    checkoutSessionHandler ⟨none, some "p1", some "p2", some "p3"⟩ [] "cus_w8" "" "POST"
        { plan := some "one_time", email := none, name := none, thankYouUrl := none } =
      ⟨⟨500⟩, setCorsHeaders checkoutAllowedOrigins "", []⟩ ∧
    checkoutSessionHandler c8Env [] "cus_w8" "" "POST"
        { plan := some "one_time", email := none, name := none, thankYouUrl := none } =
      ⟨⟨400⟩, setCorsHeaders checkoutAllowedOrigins "", []⟩ :=
  ⟨C8_misconfiguration_behavior.1 ⟨none, some "p1", some "p2", some "p3"⟩ [] "cus_w8" ""
      { plan := some "one_time", email := none, name := none, thankYouUrl := none } (by decide),
   C8_misconfiguration_behavior.2 c8Env [] "cus_w8" ""
      { plan := some "one_time", email := none, name := none, thankYouUrl := none }
      "one_time" (by decide) rfl (by decide)⟩

/-- C8 counterexample: the claim demands a 5xx for a supported plan whose
price identifier is missing, but the Session Initiator answers 400 (the
Unknown-plan client error): one_time is supported, its price id is unset in
c8Env, and the response status is 400, not in the 5xx range. -/
theorem C8_counterexample :
    "one_time" ∈ supportedPlans ∧
    c8Env.PRICE_ONE_TIME = none ∧
    (checkoutSessionHandler c8Env [] "cus_c8" "" "POST"
      { plan := some "one_time", email := none, name := none, thankYouUrl := none }).response.status = 400 ∧
    ¬(500 ≤ (checkoutSessionHandler c8Env [] "cus_c8" "" "POST"
      { plan := some "one_time", email := none, name := none, thankYouUrl := none }).response.status) := by
  refine ⟨by decide, rfl, by decide, by decide⟩

/-- Test for the one call kind that would reach the downstream automation
endpoint. -/
def isRelayCall : StripeCall → Bool
  | .relayPost _ => true
  | _ => false

/-- C6 (amended): the Confirmation Poller re-fetches the session by id (its
single provider call is the read-only retrieve), answers 200 with exactly the
projection of the provider-side fields (id, mode, raw status and
payment_status, currency, amount_total, customer id, subscription id, invoice
fields, custom fields) — nothing derived from any client-asserted flag — and
issues no relay to the downstream automation endpoint itself; the downstream
relay lives in the separate tracking endpoint and is client-triggered. -/
theorem C6_confirm_poller_reads_provider_state
    (stripeSecret : Option String) (sessionsDb : List (String × CheckoutSessionView))
    (origin sid : String) (s : CheckoutSessionView)
    (hsec : jsTruthy stripeSecret = true) (hsid : sid ≠ "")
    (hlook : lookupKey sessionsDb sid = some s) :
    confirmSessionHandler stripeSecret sessionsDb origin "POST" (some sid) =
      ⟨⟨200⟩, some (confirmBodyOf s), [.sessionsRetrieve sid],
        setCorsHeaders checkoutAllowedOrigins origin⟩ ∧
    (confirmSessionHandler stripeSecret sessionsDb origin "POST" (some sid)).calls.any
      isRelayCall = false := by
  have hs : jsTruthy (some sid) = true := by simp [jsTruthy, hsid]
  have hmain : confirmSessionHandler stripeSecret sessionsDb origin "POST" (some sid) =
      ⟨⟨200⟩, some (confirmBodyOf s), [.sessionsRetrieve sid],
        setCorsHeaders checkoutAllowedOrigins origin⟩ := by
    simp [confirmSessionHandler, hsec, hs, hlook]
  exact ⟨hmain, by simp [hmain, isRelayCall]⟩

/-- The complete-and-paid session of the concrete C6 scenarios. -/
def c6Session : CheckoutSessionView :=
  { id := "cs_6", mode := "payment", status := "complete", payment_status := "paid",
    currency := "eur", amount_total := 49900, customer := some "cus_6", subscription := none,
    invoiceId := none, hosted_invoice_url := none, invoice_pdf := none, custom_fields := [] }

/-- Concrete instantiation of `C6_confirm_poller_reads_provider_state` at the
complete-and-paid session c6Session. -/
theorem C6_witness :
    confirmSessionHandler (some "sk_6") [("cs_6", c6Session)] "" "POST" (some "cs_6") =
      ⟨⟨200⟩, some (confirmBodyOf c6Session), [.sessionsRetrieve "cs_6"],
        setCorsHeaders checkoutAllowedOrigins ""⟩ ∧
    (confirmSessionHandler (some "sk_6") [("cs_6", c6Session)] "" "POST" (some "cs_6")).calls.any
      isRelayCall = false :=
  C6_confirm_poller_reads_provider_state (some "sk_6") [("cs_6", c6Session)] "" "cs_6"
    c6Session (by decide) (by decide) (by decide)

/-- C6 counterexample: the claim asserts that on confirmed success the
Confirmation Poller relays a normalized event to the configured downstream
automation endpoint — but on a session the provider reports complete and paid,
the handler issues only the read-only retrieve and no relay call at all, and
its response body carries no contact email field (it is the bare provider
projection). -/
theorem C6_counterexample :
    c6Session.status = "complete" ∧ c6Session.payment_status = "paid" ∧
    (confirmSessionHandler (some "sk_6") [("cs_6", c6Session)] "" "POST" (some "cs_6")).calls =
      [.sessionsRetrieve "cs_6"] ∧
    (confirmSessionHandler (some "sk_6") [("cs_6", c6Session)] "" "POST"
      (some "cs_6")).calls.any isRelayCall = false := by
  refine ⟨rfl, rfl, by decide, by decide⟩

/-- C7: a session the provider reports as open is answered with a 200 success
response whose body echoes the raw status and payment_status fields — the
unconfirmed state is not treated as an error. -/
theorem C7_open_session_not_an_error
    (stripeSecret : Option String) (sessionsDb : List (String × CheckoutSessionView))
    (origin sid : String) (s : CheckoutSessionView)
    (hsec : jsTruthy stripeSecret = true) (hsid : sid ≠ "")
    (hlook : lookupKey sessionsDb sid = some s) (hopen : s.status = "open") :
    (confirmSessionHandler stripeSecret sessionsDb origin "POST" (some sid)).response.status = 200 ∧
    (confirmSessionHandler stripeSecret sessionsDb origin "POST" (some sid)).body =
      some (confirmBodyOf s) ∧
    (confirmBodyOf s).status = "open" ∧
    (confirmBodyOf s).payment_status = s.payment_status := by
  have hs : jsTruthy (some sid) = true := by simp [jsTruthy, hsid]
  have hmain : confirmSessionHandler stripeSecret sessionsDb origin "POST" (some sid) =
      ⟨⟨200⟩, some (confirmBodyOf s), [.sessionsRetrieve sid],
        setCorsHeaders checkoutAllowedOrigins origin⟩ := by
    simp [confirmSessionHandler, hsec, hs, hlook]
  exact ⟨by simp [hmain], by simp [hmain], by simp [confirmBodyOf, hopen], rfl⟩

/-- The open, unpaid session of the C7 witness. -/
def c7Session : CheckoutSessionView :=
  { id := "cs_7", mode := "subscription", status := "open", payment_status := "unpaid",
    currency := "eur", amount_total := 51500, customer := none, subscription := none,
    invoiceId := none, hosted_invoice_url := none, invoice_pdf := none, custom_fields := [] }

/-- Concrete instantiation of `C7_open_session_not_an_error` at c7Session. -/
theorem C7_witness :
    (confirmSessionHandler (some "sk_7") [("cs_7", c7Session)] "" "POST"
      (some "cs_7")).response.status = 200 ∧
    (confirmSessionHandler (some "sk_7") [("cs_7", c7Session)] "" "POST" (some "cs_7")).body =
      some (confirmBodyOf c7Session) ∧
    (confirmBodyOf c7Session).status = "open" ∧
    (confirmBodyOf c7Session).payment_status = c7Session.payment_status :=
  C7_open_session_not_an_error (some "sk_7") [("cs_7", c7Session)] "" "cs_7" c7Session
    (by decide) (by decide) (by decide) rfl

/-- C9 (amended): every handler response carries exactly the headers of
`setCorsHeaders` for its allow-list; an allow-listed origin gets
Access-Control-Allow-Origin echoing that origin; an origin outside the list
gets no Access-Control-Allow-Origin header — but the other two CORS headers
(Allow-Methods, Allow-Headers) are set unconditionally, so the response is not
free of CORS headers. -/
theorem C9_cors_headers (allowed : List String) (origin : String) :
    (origin ∈ allowed → setCorsHeaders allowed origin =
      [("Access-Control-Allow-Origin", origin),
       ("Access-Control-Allow-Methods", "POST, OPTIONS"),
       ("Access-Control-Allow-Headers", "Content-Type")]) ∧
    (origin ∉ allowed →
      (∀ v, ("Access-Control-Allow-Origin", v) ∉ setCorsHeaders allowed origin) ∧
      setCorsHeaders allowed origin =
        [("Access-Control-Allow-Methods", "POST, OPTIONS"),
         ("Access-Control-Allow-Headers", "Content-Type")]) ∧
    (∀ (env : CheckoutEnv) (db : List Customer) (fid method : String) (body : CheckoutBody),
      (checkoutSessionHandler env db fid origin method body).headers =
        setCorsHeaders checkoutAllowedOrigins origin) ∧
    (∀ (url : Option String) (now : Int) (method : String) (body : JsonObj),
      (trackHandler url now origin method body).headers =
        setCorsHeaders trackAllowedOrigins origin) := by
  refine ⟨?_, ?_, ?_, ?_⟩
  · intro h
    simp [setCorsHeaders, h]
  · intro h
    refine ⟨?_, by simp [setCorsHeaders, h]⟩
    intro v
    simp [setCorsHeaders, h]
  · intro env db fid method body
    simp only [checkoutSessionHandler]
    repeat' split
    all_goals rfl
  · intro url now method body
    simp only [trackHandler]
    repeat' split
    all_goals rfl

/-- Concrete instantiation of `C9_cors_headers`: an allow-listed origin is
echoed, and the handler headers agree with setCorsHeaders. -/
theorem C9_witness :
    setCorsHeaders checkoutAllowedOrigins "https://ai-business-engine.com" =
      [("Access-Control-Allow-Origin", "https://ai-business-engine.com"),
       ("Access-Control-Allow-Methods", "POST, OPTIONS"),
       ("Access-Control-Allow-Headers", "Content-Type")] ∧
    (trackHandler (some "https://hook.example") 0 "https://ai-business-engine.com" "POST" []).headers =
      setCorsHeaders trackAllowedOrigins "https://ai-business-engine.com" :=
  ⟨(C9_cors_headers checkoutAllowedOrigins "https://ai-business-engine.com").1 (by decide),
   (C9_cors_headers trackAllowedOrigins "https://ai-business-engine.com").2.2.2
      (some "https://hook.example") 0 "POST" []⟩

/-- C9 counterexample: for an origin outside every allow-list the response
still carries CORS headers — Access-Control-Allow-Methods and
Access-Control-Allow-Headers are set unconditionally — refuting the claim that
non-allow-listed origins receive no CORS headers at all. -/
theorem C9_counterexample :
    "https://evil.example" ∉ checkoutAllowedOrigins ∧
    "https://evil.example" ∉ trackAllowedOrigins ∧
    ("Access-Control-Allow-Methods", "POST, OPTIONS") ∈
      (trackHandler (some "https://hook.example") 0 "https://evil.example" "POST" []).headers ∧
    ("Access-Control-Allow-Headers", "Content-Type") ∈
      (checkoutSessionHandler ⟨some "sk", some "p1", some "p2", some "p3"⟩ [] "cus_x"
        "https://evil.example" "POST" ⟨none, none, none, none⟩).headers := by
  refine ⟨by decide, by decide, by decide, by decide⟩

/-- Unfolding of `lookupKey` on a cons cell. -/
theorem lookupKey_cons {α : Type} (p : String × α) (rest : List (String × α)) (k : String) :
    lookupKey (p :: rest) k = if p.1 == k then some p.2 else lookupKey rest k := by
  by_cases h : (p.1 == k) = true <;> simp [lookupKey, List.find?_cons, h]

/-- Unfolding of `lookupKey` on the empty list. -/
theorem lookupKey_nil {α : Type} (k : String) : lookupKey ([] : List (String × α)) k = none := rfl

/-- Replacing the entries of key k in place does not affect lookups of other
keys. -/
theorem find_replace_other (o : JsonObj) (k k2 : String) (v : JsonVal) (hne : k2 ≠ k) :
    lookupKey (o.map (fun p => if p.1 == k then (k, v) else p)) k2 = lookupKey o k2 := by
  have hkk2 : ¬((k == k2) = true) := by
    simp only [beq_iff_eq]
    exact fun hh => hne hh.symm
  induction o with
  | nil => rfl
  | cons p rest ih =>
    rw [List.map_cons, lookupKey_cons, lookupKey_cons]
    by_cases hp : (p.1 == k) = true
    · have hp2 : ¬((p.1 == k2) = true) := by
        simp only [beq_iff_eq] at hp ⊢
        rw [hp]; exact fun hh => hne hh.symm
      rw [if_pos hp]
      rw [if_neg (show ¬((((k, v) : String × JsonVal).1 == k2) = true) from hkk2), if_neg hp2]
      exact ih
    · rw [if_neg hp]
      by_cases hq : (p.1 == k2) = true
      · rw [if_pos hq, if_pos hq]
      · rw [if_neg hq, if_neg hq]
        exact ih

/-- Replacing the entries of a present key k in place makes a lookup of k
yield the new value. -/
theorem find_replace_self (o : JsonObj) (k : String) (v : JsonVal)
    (h : (o.any fun p => p.1 == k) = true) :
    lookupKey (o.map (fun p => if p.1 == k then (k, v) else p)) k = some v := by
  induction o with
  | nil => simp at h
  | cons p rest ih =>
    rw [List.map_cons, lookupKey_cons]
    by_cases hp : (p.1 == k) = true
    · rw [if_pos hp]
      rw [if_pos (show ((((k, v) : String × JsonVal).1 == k) = true) from beq_self_eq_true k)]
    · rw [if_neg hp, if_neg hp]
      simp only [List.any_cons, Bool.or_eq_true] at h
      exact ih (h.resolve_left hp)

/-- Appending an entry for an absent key makes its lookup yield the value. -/
theorem find_append_single_self (o : JsonObj) (k : String) (v : JsonVal)
    (h : (o.any fun p => p.1 == k) = false) :
    lookupKey (o ++ [(k, v)]) k = some v := by
  induction o with
  | nil => simp [lookupKey_cons]
  | cons p rest ih =>
    simp only [List.any_cons, Bool.or_eq_false_iff] at h
    rw [List.cons_append, lookupKey_cons]
    have hp : ¬((p.1 == k) = true) := by rw [h.1]; exact Bool.false_ne_true
    rw [if_neg hp]
    exact ih h.2

/-- Appending an entry does not affect lookups of other keys. -/
theorem find_append_single_other (o : JsonObj) (k k2 : String) (v : JsonVal) (hne : k2 ≠ k) :
    lookupKey (o ++ [(k, v)]) k2 = lookupKey o k2 := by
  have hkk2 : ¬((k == k2) = true) := by
    simp only [beq_iff_eq]
    exact fun hh => hne hh.symm
  induction o with
  | nil =>
    rw [List.nil_append, lookupKey_cons, if_neg hkk2]
  | cons p rest ih =>
    rw [List.cons_append, lookupKey_cons, lookupKey_cons]
    by_cases hq : (p.1 == k2) = true
    · rw [if_pos hq, if_pos hq]
    · rw [if_neg hq, if_neg hq]
      exact ih

/-- After a JS object insertion, the inserted key maps to the new value. -/
theorem lookup_objInsert_self (o : JsonObj) (k : String) (v : JsonVal) :
    lookupKey (objInsert o k v) k = some v := by
  unfold objInsert
  split
  case isTrue h => exact find_replace_self o k v h
  case isFalse h =>
    exact find_append_single_self o k v (by simp only [Bool.not_eq_true] at h; exact h)

/-- A JS object insertion does not affect other keys. -/
theorem lookup_objInsert_other (o : JsonObj) (k k2 : String) (v : JsonVal) (hne : k2 ≠ k) :
    lookupKey (objInsert o k v) k2 = lookupKey o k2 := by
  unfold objInsert
  split
  · exact find_replace_other o k k2 v hne
  · exact find_append_single_other o k k2 v hne

/-- Spreading an object whose keys do not include k leaves lookups of k at
the base object. -/
theorem lookup_objSpread_not_mem (body : JsonObj) (base : JsonObj) (k : String)
    (h : k ∉ body.map (fun p => p.1)) :
    lookupKey (objSpread base body) k = lookupKey base k := by
  induction body generalizing base with
  | nil => rfl
  | cons q rest ih =>
    simp only [List.map_cons, List.mem_cons, not_or] at h
    rw [objSpread]
    rw [ih (objInsert base q.1 q.2) h.2]
    exact lookup_objInsert_other base q.1 k q.2 h.1

/-- Spreading an object with duplicate-free keys makes each of its entries win
over the base object. -/
theorem lookup_objSpread_mem (body : JsonObj) (base : JsonObj) (k : String) (v : JsonVal)
    (hnd : (body.map (fun p => p.1)).Nodup) (hmem : (k, v) ∈ body) :
    lookupKey (objSpread base body) k = some v := by
  induction body generalizing base with
  | nil => cases hmem
  | cons q rest ih =>
    simp only [List.map_cons, List.nodup_cons] at hnd
    rcases List.mem_cons.mp hmem with heq | hm
    · cases heq
      rw [objSpread]
      rw [lookup_objSpread_not_mem rest (objInsert base k v) k (by simpa using hnd.1)]
      exact lookup_objInsert_self base k v
    · rw [objSpread]
      exact ih (objInsert base q.1 q.2) hnd.2 hm

/-- C10: the payload the tracking relay forwards is project / receivedAt
merged with the client body, client keys winning: every client-supplied entry
is forwarded with exactly its value (including overrides of project and
receivedAt), the two injected fields only appear with their fixed values when
the client did not supply them, and no other key appears in the payload. -/
theorem C10_track_payload_precedence (url : Option String) (now : Int) (origin : String)
    (body : JsonObj) (hu : jsTruthy url = true)
    (hnd : (body.map (fun p => p.1)).Nodup) :
    (trackHandler url now origin "POST" body).relay = some (url.getD "", trackPayload now body) ∧
    (∀ k v, (k, v) ∈ body → lookupKey (trackPayload now body) k = some v) ∧
    ("project" ∉ body.map (fun p => p.1) →
      lookupKey (trackPayload now body) "project" = some (JsonVal.str "aibe-checkout")) ∧
    ("receivedAt" ∉ body.map (fun p => p.1) →
      lookupKey (trackPayload now body) "receivedAt" = some (JsonVal.num now)) ∧
    (∀ k, k ∉ body.map (fun p => p.1) → k ≠ "project" → k ≠ "receivedAt" →
      lookupKey (trackPayload now body) k = none) := by
  refine ⟨by simp [trackHandler, hu], ?_, ?_, ?_, ?_⟩
  · intro k v hm
    rw [trackPayload]
    exact lookup_objSpread_mem body _ k v hnd hm
  · intro h
    rw [trackPayload, lookup_objSpread_not_mem body _ _ h]
    simp [lookupKey_cons]
  · intro h
    rw [trackPayload, lookup_objSpread_not_mem body _ _ h]
    simp [lookupKey_cons]
  · intro k hk h1 h2
    rw [trackPayload, lookup_objSpread_not_mem body _ _ hk]
    simp [lookupKey_cons, lookupKey_nil, Ne.symm h1, Ne.symm h2]

/-- The client body of the C10 witness: it overrides the injected project
field and carries one further field. -/
def c10Body : JsonObj := [("project", JsonVal.str "client-project"), ("event", JsonVal.str "purchase")]

/-- Concrete instantiation of `C10_track_payload_precedence`: the client
override of project wins, the client field event is forwarded unchanged,
receivedAt falls back to the injected timestamp, and an unrelated key is
absent. -/
theorem C10_witness :
    (trackHandler (some "https://hook.example") 42 "" "POST" c10Body).relay =
      some ("https://hook.example", trackPayload 42 c10Body) ∧
    lookupKey (trackPayload 42 c10Body) "project" = some (JsonVal.str "client-project") ∧
    lookupKey (trackPayload 42 c10Body) "event" = some (JsonVal.str "purchase") ∧
    lookupKey (trackPayload 42 c10Body) "receivedAt" = some (JsonVal.num 42) ∧
    lookupKey (trackPayload 42 c10Body) "email" = none :=
  have h := C10_track_payload_precedence (some "https://hook.example") 42 "" c10Body
    (by decide) (by decide)
  ⟨h.1,
   h.2.1 "project" (JsonVal.str "client-project") (by decide),
   h.2.1 "event" (JsonVal.str "purchase") (by decide),
   h.2.2.2.1 (by decide),
   h.2.2.2.2 "email" (by decide) (by decide) (by decide)⟩

/-- Membership of the head in a cons list, for the used-key set. -/
theorem contains_cons_self (a : String) (l : List String) : (a :: l).contains a = true := by
  simp

/-- Membership is preserved by consing another key. -/
theorem contains_cons_of_contains (a x : String) (l : List String) (h : l.contains x = true) :
    (a :: l).contains x = true := by
  simp at h ⊢
  exact Or.inr h

/-- The invoice produced by the keyed `invoices.update` of part_010. -/
def patchedInvoice (cf : Option (List CustomFieldKV)) (j : Invoice) : Invoice :=
  match cf with
  | some l => { j with custom_fields := l }
  | none => j

/-- A part_010 provider state after a fresh keyed mutation wrote invoice j. -/
def withInvoice (st : WH10State) (i : String) (j : Invoice) (key : String) : WH10State :=
  { st with invoices := updateEntry st.invoices i j, usedKeys := key :: st.usedKeys }

/-- The patch of a keyed `invoices.update` does not change the invoice id. -/
theorem patchedInvoice_id (cf : Option (List CustomFieldKV)) (j : Invoice) :
    (patchedInvoice cf j).id = j.id := by cases cf <;> rfl

/-- The patch of a keyed `invoices.update` does not change the invoice
status. -/
theorem patchedInvoice_status (cf : Option (List CustomFieldKV)) (j : Invoice) :
    (patchedInvoice cf j).status = j.status := by cases cf <;> rfl

/-- Looking up a key after updating its entry yields the new value. -/
theorem lookup_updateEntry_self {α : Type} (l : List (String × α)) (k : String) (v w : α)
    (h : lookupKey l k = some w) :
    lookupKey (updateEntry l k v) k = some v := by
  induction l with
  | nil => rw [lookupKey_nil] at h; cases h
  | cons p rest ih =>
    rw [lookupKey_cons] at h
    rw [updateEntry, List.map_cons]
    by_cases hp : (p.1 == k) = true
    · rw [if_pos hp, lookupKey_cons]
      rw [if_pos (show ((((k, v) : String × α).1 == k) = true) from beq_self_eq_true k)]
    · rw [if_neg hp] at h ⊢
      rw [lookupKey_cons, if_neg hp]
      exact ih h

/-- Inversion of a successful keyed `invoices.update`: either the key was
consumed before and nothing changed, or the key was fresh and exactly the
addressed invoice was patched while the key was recorded. -/
theorem invoicesUpdateKeyed_ok_inv (st : WH10State) (i : String)
    (cf : Option (List CustomFieldKV)) (key : String) (st2 : WH10State) (c : List StripeCall)
    (h : invoicesUpdateKeyed st i cf key = .ok st2 c) :
    (st.usedKeys.contains key = true ∧ st2 = st) ∨
    (st.usedKeys.contains key = false ∧ ∃ j, lookupKey st.invoices i = some j ∧
      st2 = withInvoice st i (patchedInvoice cf j) key) := by
  rw [invoicesUpdateKeyed] at h
  by_cases hk : st.usedKeys.contains key = true
  · rw [if_pos hk] at h
    simp only [ProcResult.ok.injEq] at h
    exact Or.inl ⟨hk, h.1.symm⟩
  · rw [if_neg hk] at h
    cases hl : lookupKey st.invoices i with
    | none => rw [hl] at h; exact absurd h (by simp)
    | some j =>
      rw [hl] at h
      dsimp only at h
      simp only [ProcResult.ok.injEq] at h
      exact Or.inr ⟨by simpa using hk, j, rfl, h.1.symm⟩

/-- Inversion of a successful keyed `finalizeInvoice`: either the key was
consumed before and nothing changed, or the key was fresh and a draft invoice
became open with its finalization timestamp set. -/
theorem finalizeInvoiceKeyed_ok_inv (st : WH10State) (i key : String)
    (st2 : WH10State) (c : List StripeCall)
    (h : finalizeInvoiceKeyed st i key = .ok st2 c) :
    (st.usedKeys.contains key = true ∧ st2 = st) ∨
    (st.usedKeys.contains key = false ∧ ∃ j, lookupKey st.invoices i = some j ∧
      j.status = "draft" ∧
      st2 = withInvoice st i { j with status := "open", finalized_at := some 1 } key) := by
  rw [finalizeInvoiceKeyed] at h
  by_cases hk : st.usedKeys.contains key = true
  · rw [if_pos hk] at h
    simp only [ProcResult.ok.injEq] at h
    exact Or.inl ⟨hk, h.1.symm⟩
  · rw [if_neg hk] at h
    cases hl : lookupKey st.invoices i with
    | none => rw [hl] at h; exact absurd h (by simp)
    | some j =>
      rw [hl] at h
      dsimp only at h
      by_cases hs : (j.status == "draft") = true
      · rw [if_pos hs] at h
        simp only [ProcResult.ok.injEq] at h
        exact Or.inr ⟨by simpa using hk, j, rfl, by simpa using hs, h.1.symm⟩
      · rw [if_neg hs] at h
        exact absurd h (by simp)

/-- When both idempotency keys of an invoice are already consumed, running
`applyFieldsAndFinalizeInvoice` succeeds and leaves the provider state
untouched (the calls it issues are provider no-ops). -/
theorem applyFields_second_noop (st : WH10State) (inv2 : Invoice) (cn tn : Option String)
    (eid : String)
    (hk1 : st.usedKeys.contains ("inv-update-" ++ inv2.id ++ "-" ++ eid) = true)
    (hk2 : (inv2.status == "draft" || inv2.status == "open") = true →
      st.usedKeys.contains ("inv-finalize-" ++ inv2.id ++ "-" ++ eid) = true) :
    ∃ tr2, applyFieldsAndFinalizeInvoice st inv2 cn tn eid = .ok st tr2 := by
  by_cases hc : ((buildInvoiceCustomFields cn tn).isNone && !(jsTruthy cn)) = true
  · exact ⟨[], by rw [applyFieldsAndFinalizeInvoice, if_pos hc]⟩
  · have hu : invoicesUpdateKeyed st inv2.id (buildInvoiceCustomFields cn tn)
        ("inv-update-" ++ inv2.id ++ "-" ++ eid) = .ok st [.invoicesUpdate inv2.id] := by
      rw [invoicesUpdateKeyed, if_pos hk1]
    by_cases hs : (inv2.status == "draft" || inv2.status == "open") = true
    · have hf : finalizeInvoiceKeyed st inv2.id ("inv-finalize-" ++ inv2.id ++ "-" ++ eid) =
          .ok st [.invoicesFinalize inv2.id] := by
        rw [finalizeInvoiceKeyed, if_pos (hk2 hs)]
      refine ⟨[StripeCall.invoicesUpdate inv2.id] ++ [StripeCall.invoicesFinalize inv2.id], ?_⟩
      rw [applyFieldsAndFinalizeInvoice, if_neg hc, hu]
      dsimp only
      rw [if_pos hs, hf]
    · refine ⟨[StripeCall.invoicesUpdate inv2.id], ?_⟩
      rw [applyFieldsAndFinalizeInvoice, if_neg hc, hu]
      dsimp only
      rw [if_neg hs]

/-- Replaying `applyFieldsAndFinalizeInvoice` with the same event id on the
re-fetched invoice is a provider no-op: it succeeds and leaves the state
exactly as after the first run — both its calls hit consumed idempotency keys,
so in particular the already-finalized invoice is not finalized again. -/
theorem applyFieldsAndFinalizeInvoice_replay
    (st : WH10State) (inv : Invoice) (cn tn : Option String) (eid : String)
    (st1 : WH10State) (tr1 : List StripeCall)
    (hcur : lookupKey st.invoices inv.id = some inv)
    (h1 : applyFieldsAndFinalizeInvoice st inv cn tn eid = .ok st1 tr1) :
    ∃ tr2, applyFieldsAndFinalizeInvoice st1 ((lookupKey st1.invoices inv.id).getD inv) cn tn eid
      = .ok st1 tr2 := by
  rw [applyFieldsAndFinalizeInvoice] at h1
  by_cases hc : ((buildInvoiceCustomFields cn tn).isNone && !(jsTruthy cn)) = true
  · rw [if_pos hc] at h1
    simp only [ProcResult.ok.injEq] at h1
    obtain ⟨h1a, _⟩ := h1
    subst h1a
    rw [hcur, Option.getD_some]
    exact ⟨[], by rw [applyFieldsAndFinalizeInvoice, if_pos hc]⟩
  · rw [if_neg hc] at h1
    cases hreq : invoicesUpdateKeyed st inv.id (buildInvoiceCustomFields cn tn)
        ("inv-update-" ++ inv.id ++ "-" ++ eid) with
    | err m stU cU =>
      rw [hreq] at h1
      exact absurd h1 (by simp)
    | ok stU cU =>
      rw [hreq] at h1
      dsimp only at h1
      rcases invoicesUpdateKeyed_ok_inv _ _ _ _ _ _ hreq with ⟨hk1, hEq⟩ | ⟨_, j, hj, hEq⟩
      · rw [hEq] at h1
        by_cases hs : (inv.status == "draft" || inv.status == "open") = true
        · rw [if_pos hs] at h1
          cases hfin : finalizeInvoiceKeyed st inv.id ("inv-finalize-" ++ inv.id ++ "-" ++ eid) with
          | err m stF cF =>
            rw [hfin] at h1
            exact absurd h1 (by simp)
          | ok stF cF =>
            rw [hfin] at h1
            dsimp only at h1
            simp only [ProcResult.ok.injEq] at h1
            obtain ⟨h1a, _⟩ := h1
            subst h1a
            rcases finalizeInvoiceKeyed_ok_inv _ _ _ _ _ hfin with ⟨hk2, hEq2⟩ | ⟨_, j2, hj2, hd2, hEq2⟩
            · rw [hEq2]
              rw [hcur, Option.getD_some]
              exact applyFields_second_noop st inv cn tn eid hk1 (fun _ => hk2)
            · rw [hcur] at hj2
              injection hj2 with hj2
              subst hj2
              rw [hEq2]
              rw [show (withInvoice st inv.id { inv with status := "open", finalized_at := some 1 }
                  ("inv-finalize-" ++ inv.id ++ "-" ++ eid)).invoices =
                updateEntry st.invoices inv.id { inv with status := "open", finalized_at := some 1 }
                from rfl]
              rw [lookup_updateEntry_self st.invoices inv.id _ inv hcur, Option.getD_some]
              refine applyFields_second_noop _ _ cn tn eid ?_ ?_
              · exact contains_cons_of_contains _ _ _ hk1
              · intro _
                exact contains_cons_self _ _
        · rw [if_neg hs] at h1
          simp only [ProcResult.ok.injEq] at h1
          obtain ⟨h1a, _⟩ := h1
          subst h1a
          rw [hcur, Option.getD_some]
          exact applyFields_second_noop st inv cn tn eid hk1 (fun hss => absurd hss hs)
      · rw [hcur] at hj
        injection hj with hj
        subst hj
        subst hEq
        have lookupU : lookupKey (withInvoice st inv.id
            (patchedInvoice (buildInvoiceCustomFields cn tn) inv)
            ("inv-update-" ++ inv.id ++ "-" ++ eid)).invoices inv.id =
            some (patchedInvoice (buildInvoiceCustomFields cn tn) inv) :=
          lookup_updateEntry_self st.invoices inv.id _ inv hcur
        by_cases hs : (inv.status == "draft" || inv.status == "open") = true
        · rw [if_pos hs] at h1
          cases hfin : finalizeInvoiceKeyed (withInvoice st inv.id
              (patchedInvoice (buildInvoiceCustomFields cn tn) inv)
              ("inv-update-" ++ inv.id ++ "-" ++ eid)) inv.id
              ("inv-finalize-" ++ inv.id ++ "-" ++ eid) with
          | err m stF cF =>
            rw [hfin] at h1
            exact absurd h1 (by simp)
          | ok stF cF =>
            rw [hfin] at h1
            dsimp only at h1
            simp only [ProcResult.ok.injEq] at h1
            obtain ⟨h1a, _⟩ := h1
            subst h1a
            rcases finalizeInvoiceKeyed_ok_inv _ _ _ _ _ hfin with ⟨hk2, hEq2⟩ | ⟨_, j2, hj2, hd2, hEq2⟩
            · subst hEq2
              rw [lookupU, Option.getD_some]
              refine applyFields_second_noop _ _ cn tn eid ?_ ?_
              · rw [patchedInvoice_id]
                exact contains_cons_self _ _
              · intro _
                rw [patchedInvoice_id]
                exact hk2
            · rw [lookupU] at hj2
              injection hj2 with hj2
              subst hj2
              subst hEq2
              rw [show (withInvoice (withInvoice st inv.id
                    (patchedInvoice (buildInvoiceCustomFields cn tn) inv)
                    ("inv-update-" ++ inv.id ++ "-" ++ eid)) inv.id
                    { patchedInvoice (buildInvoiceCustomFields cn tn) inv with
                        status := "open", finalized_at := some 1 }
                    ("inv-finalize-" ++ inv.id ++ "-" ++ eid)).invoices =
                  updateEntry (withInvoice st inv.id
                    (patchedInvoice (buildInvoiceCustomFields cn tn) inv)
                    ("inv-update-" ++ inv.id ++ "-" ++ eid)).invoices inv.id
                    { patchedInvoice (buildInvoiceCustomFields cn tn) inv with
                        status := "open", finalized_at := some 1 }
                from rfl]
              rw [lookup_updateEntry_self _ inv.id _ _ lookupU, Option.getD_some]
              refine applyFields_second_noop _ _ cn tn eid ?_ ?_
              · rw [patchedInvoice_id]
                exact contains_cons_of_contains _ _ _ (contains_cons_self _ _)
              · intro _
                rw [patchedInvoice_id]
                exact contains_cons_self _ _
        · rw [if_neg hs] at h1
          simp only [ProcResult.ok.injEq] at h1
          obtain ⟨h1a, _⟩ := h1
          subst h1a
          rw [lookupU, Option.getD_some]
          refine applyFields_second_noop _ _ cn tn eid ?_ ?_
          · rw [patchedInvoice_id]
            exact contains_cons_self _ _
          · intro hss
            rw [patchedInvoice_status] at hss
            exact absurd hss hs

/-- The field-name list of the upsert either stays unchanged or gains the new
name at the end, the latter only when the name was absent. -/
theorem upsertGo_names (l : List CustomFieldKV) (n v : String) :
    (upsertGo l n v).map (fun f => f.name) = l.map (fun f => f.name) ∨
    ((upsertGo l n v).map (fun f => f.name) = l.map (fun f => f.name) ++ [n] ∧
      n ∉ l.map (fun f => f.name)) := by
  induction l with
  | nil => right; simp [upsertGo]
  | cons f rest ih =>
    rw [upsertGo]
    by_cases hf : (f.name == n) = true
    · left
      rw [if_pos hf]
      simp only [List.map_cons]
      rw [show f.name = n from by simpa using hf]
    · rw [if_neg hf]
      rcases ih with h1 | ⟨h1, h2⟩
      · left
        simp only [List.map_cons, h1]
      · right
        constructor
        · simp only [List.map_cons, h1, List.cons_append]
        · simp only [List.map_cons, List.mem_cons, not_or]
          exact ⟨fun hh => (by simpa using hf : ¬ f.name = n) hh.symm, h2⟩

/-- Merging by field name preserves duplicate-freeness of the names. -/
theorem names_nodup_upsertCustomField (l : List CustomFieldKV) (n v : String)
    (h : (l.map (fun f => f.name)).Nodup) :
    ((upsertCustomField l n v).map (fun f => f.name)).Nodup := by
  rw [upsertCustomField]
  split
  · exact h
  · rcases upsertGo_names l n v with h1 | ⟨h1, h2⟩
    · rw [h1]; exact h
    · rw [h1]
      simp [List.nodup_append, h, h2]

/-- A name absent from the name list filters to no entries. -/
theorem filter_name_eq_nil (l : List CustomFieldKV) (n : String)
    (h : n ∉ l.map (fun f => f.name)) :
    l.filter (fun f => f.name == n) = [] := by
  induction l with
  | nil => rfl
  | cons f rest ih =>
    simp only [List.map_cons, List.mem_cons, not_or] at h
    have hf : (f.name == n) = false := by
      simp only [beq_eq_false_iff_ne]
      exact fun hh => h.1 hh.symm
    simp only [List.filter_cons, hf, Bool.false_eq_true, if_neg, reduceIte]
    exact ih h.2

/-- A duplicate-free name list admits at most one entry per name. -/
theorem count_le_one_of_names_nodup (l : List CustomFieldKV) (n : String)
    (h : (l.map (fun f => f.name)).Nodup) :
    (l.filter (fun f => f.name == n)).length ≤ 1 := by
  induction l with
  | nil => simp
  | cons f rest ih =>
    simp only [List.map_cons, List.nodup_cons] at h
    by_cases hf : (f.name == n) = true
    · have hn : n ∉ rest.map (fun f => f.name) := by
        rw [show n = f.name from (by simpa using hf : f.name = n).symm]
        exact h.1
      simp [List.filter_cons, hf, filter_name_eq_nil rest n hn]
    · simp only [List.filter_cons, hf, Bool.false_eq_true, reduceIte]
      exact ih h.2

/-- C2 (amended): repeated processing of the same event is idempotent at the
provider. (a) Applying the customer invoice-default upsert twice with the same
field values leaves at most one custom-field entry per field name, provided
the field names were duplicate-free to begin with (the upsert merges by name,
never appends a duplicate). (b) Replaying part_010 apply-and-finalize with the
same event id on the re-fetched invoice succeeds and leaves the provider state
exactly as after the first processing: its update and finalize calls carry the
already-consumed (invoice id, event id)-scoped idempotency keys, so no
finalize takes effect on the already-finalized invoice — though the calls are
still issued (see the counterexample). -/
theorem C2_idempotent_reprocessing :
    (∀ (customer : Customer) (cn tn : Option String) (n : String),
      (customer.invoiceCustomFields.map (fun f => f.name)).Nodup →
      (((upsertCustomerInvoiceDefaults (upsertCustomerInvoiceDefaults customer cn tn) cn tn).invoiceCustomFields.filter
        (fun f => f.name == n)).length ≤ 1)) ∧
    (∀ (st : WH10State) (inv : Invoice) (cn tn : Option String) (eid : String)
        (st1 : WH10State) (tr1 : List StripeCall),
      lookupKey st.invoices inv.id = some inv →
      applyFieldsAndFinalizeInvoice st inv cn tn eid = .ok st1 tr1 →
      ∃ tr2, applyFieldsAndFinalizeInvoice st1 ((lookupKey st1.invoices inv.id).getD inv) cn tn eid
        = .ok st1 tr2) := by
  constructor
  · intro customer cn tn n hnd
    exact count_le_one_of_names_nodup _ n
      (names_nodup_upsertCustomField _ _ _
        (names_nodup_upsertCustomField _ _ _
          (names_nodup_upsertCustomField _ _ _
            (names_nodup_upsertCustomField _ _ _ hnd))))
  · intro st inv cn tn eid st1 tr1 hcur h1
    exact applyFieldsAndFinalizeInvoice_replay st inv cn tn eid st1 tr1 hcur h1

/-- The draft invoice of the concrete C2 scenarios. -/
def c2Invoice : Invoice :=
  { id := "in_1", status := "draft", customer := some "cus_1", customer_name := none,
    custom_fields := [], finalized_at := none, auto_advance := false }

/-- The completed checkout session of the concrete C2 scenarios, carrying a
company name and referencing its invoice. -/
def c2Session : SessionObj :=
  { id := "cs_1", customer := some "cus_1", invoiceId := some "in_1", latestInvoiceId := none,
    custom_fields := [{ key := "company_name", value := some "Acme GmbH" }] }

/-- The customer of the concrete C2 scenarios. -/
def c2Customer : Customer :=
  { id := "cus_1", email := some "buyer@acme.example", name := none, metadata := [],
    invoiceCustomFields := [] }

/-- The provider state before the first delivery of the C2 event. -/
def c2State0 : WH10State :=
  { sessions := [("cs_1", c2Session)], customers := [("cus_1", c2Customer)],
    invoices := [("in_1", c2Invoice)], usedKeys := [] }

/-- The provider state after the first processing of the C2 event: the invoice
is finalized (open) with the Company field applied and both idempotency keys
consumed. -/
def c2State1 : WH10State :=
  { sessions := [("cs_1", c2Session)], customers := [("cus_1", c2Customer)],
    invoices := [("in_1",
      { id := "in_1", status := "open", customer := some "cus_1", customer_name := none,
        custom_fields := [{ name := "Company", value := "Acme GmbH" }],
        finalized_at := some 1, auto_advance := false })],
    usedKeys := ["inv-finalize-in_1-evt_1", "inv-update-in_1-evt_1"] }

/-- Concrete instantiation of `C2_idempotent_reprocessing`: double upsert of
Company/VAT leaves one Company entry, and replaying apply-and-finalize on the
already-finalized invoice is a provider no-op. -/
theorem C2_witness :
    (((upsertCustomerInvoiceDefaults (upsertCustomerInvoiceDefaults c2Customer
        (some "Acme GmbH") (some "DE123456789")) (some "Acme GmbH") (some "DE123456789")).invoiceCustomFields.filter
      (fun f => f.name == "Company")).length ≤ 1) ∧
    (∃ tr2, applyFieldsAndFinalizeInvoice c2State1
        ((lookupKey c2State1.invoices c2Invoice.id).getD c2Invoice) (some "Acme GmbH") none "evt_1"
      = .ok c2State1 tr2) :=
  ⟨C2_idempotent_reprocessing.1 c2Customer (some "Acme GmbH") (some "DE123456789") "Company"
      (by decide),
   C2_idempotent_reprocessing.2 c2State0 c2Invoice (some "Acme GmbH") none "evt_1" c2State1
      [StripeCall.invoicesUpdate "in_1", StripeCall.invoicesFinalize "in_1"]
      (by decide) (by decide)⟩

/-- The state reached by the first processing of the C2 event through the full
part_010 completed-session branch. -/
def c2StateAfter : WH10State :=
  match processCheckoutCompleted10 c2State0 "evt_1" "cs_1" with
  | .ok st _ => st
  | .err _ st _ => st

/-- The calls issued by the second processing of the same C2 event. -/
def c2ReplayTrace : List StripeCall :=
  match processCheckoutCompleted10 c2StateAfter "evt_1" "cs_1" with
  | .ok _ c => c
  | .err _ _ c => c

/-- C2 counterexample: after the first processing the invoice is already
finalized (status open, finalization timestamp set), yet the second processing
of the same event still issues a finalizeInvoice call for it — the claim that
no finalize call is issued for an already-finalized invoice is false as
stated; the call merely has no effect because its idempotency key was already
consumed. -/
theorem C2_counterexample :
    (lookupKey c2StateAfter.invoices "in_1").map (fun i => i.status) = some "open" ∧
    (lookupKey c2StateAfter.invoices "in_1").map (fun i => i.finalized_at.isSome) = some true ∧
    c2ReplayTrace.contains (.invoicesFinalize "in_1") = true := by
  decide
